import Mathlib

/-!
Verification of the schema-retrieval-and-grounding pipeline of the
Local-Text-Sql-AI-Agent-With-Ollama repository.

The Python sources (`app.py`, `chroma_utils.py`) are shallowly embedded below.
Python strings are modelled as `List Char` (`PyStr`); machinery that can raise
is modelled with `Except`; the external collaborators (SQLAlchemy inspector,
Ollama embedding provider, Langflow generation gateway, SQL executor) are
parameters of the pipeline, matching the spec's "opaque collaborator" view.
Definitions come first (embedding plus concrete fixtures), then the theorems.
-/

/-- Python strings are sequences of code points. -/
abbrev PyStr := List Char

/-- Coerce a Lean string literal into the `PyStr` model. -/
def lit (s : String) : PyStr := s.data

/-- The set of characters Python's `str.strip()` removes. -/
def isPySpace (c : Char) : Bool :=
  c = ' ' || c = '\t' || c = '\n' || c = '\r' || c = '\x0b' || c = '\x0c'

/-- Python `s.strip()`: remove leading and trailing whitespace. -/
def pyStrip (s : PyStr) : PyStr :=
  ((s.dropWhile isPySpace).reverse.dropWhile isPySpace).reverse

/-- Python `s[: -n]` for `n ≥ 0` (drop the last `n` characters). -/
def pyDropRight (s : PyStr) (n : Nat) : PyStr := s.take (s.length - n)

/-- Python `str(i)` for a non-negative integer. -/
def natStr (n : Nat) : PyStr := (Nat.repr n).data

/-- Python `", ".join(xs)`. -/
def commaJoin (xs : List PyStr) : PyStr := List.intercalate (lit (", ")) xs

/-- Python `"\n".join(xs)`. -/
def newlineJoin (xs : List PyStr) : PyStr := List.intercalate (lit ("\n")) xs

/-- One column as reported by `inspector.get_columns` (name, reported type,
primary-key flag, nullability). -/
structure Column where
  name : PyStr
  ctype : PyStr
  primary_key : Bool
  nullable : Bool
deriving DecidableEq

/-- One foreign key as reported by `inspector.get_foreign_keys`.  SQLAlchemy
reports `name` as `None` for unnamed constraints, hence the `Option`. -/
structure ForeignKey where
  name : Option PyStr
  constrained_columns : List PyStr
  referred_table : PyStr
  referred_columns : List PyStr
deriving DecidableEq

/-- The SQLAlchemy inspector over one connection descriptor.  Every metadata
call can raise (connection failure, permission failure, unsupported call);
SQLAlchemy engines connect lazily, so a failure to open the connection
surfaces as the first metadata call raising. -/
structure Inspector where
  get_table_names : Except PyStr (List PyStr)
  get_columns : PyStr → Except PyStr (List Column)
  get_foreign_keys : PyStr → Except PyStr (List ForeignKey)

/-- Python f-string interpolation of a value that may be `None`
(`f"{x}"` renders `None` as the four characters `None`). -/
def pyStrOfOpt (o : Option PyStr) : PyStr :=
  match o with
  | some s => s
  | none => lit ("None")

/-- `app.py` lines 68-76 / 125-138: render one column definition, appending
`PRIMARY KEY` and `NOT NULL` markers. -/
def renderColumnDef (col : Column) : PyStr :=
  let d := lit ("    ") ++ col.name ++ lit (" ") ++ col.ctype
  let d := if col.primary_key then d ++ lit (" PRIMARY KEY") else d
  if !col.nullable then d ++ lit (" NOT NULL") else d

/-- `app.py` lines 86-90 / 155-159: render one foreign-key constraint as an
`ALTER TABLE ... ADD CONSTRAINT` clause.  The constraint name is interpolated
directly from the inspector's dict (so a missing name prints as `None`). -/
def renderFkClause (table_name : PyStr) (fk : ForeignKey) : PyStr :=
  lit ("ALTER TABLE ") ++ table_name ++ lit (" ADD CONSTRAINT ") ++ pyStrOfOpt fk.name
    ++ lit (" FOREIGN KEY (") ++ commaJoin fk.constrained_columns
    ++ lit (") REFERENCES ") ++ fk.referred_table
    ++ lit (" (") ++ commaJoin fk.referred_columns ++ lit (");")

/-- `app.py` lines 55-93, body of the `try`: the flat list of schema lines,
joined with newlines.  `Except` threads exceptions from the metadata calls. -/
def get_db_schema_core (insp : Inspector) : Except PyStr PyStr := do
  let table_names ← insp.get_table_names
  let schema_info ← table_names.foldlM (fun (acc : List PyStr) t => do
      let cols ← insp.get_columns t
      let fks ← insp.get_foreign_keys t
      pure (acc ++ [lit ("CREATE TABLE ") ++ t ++ lit (" (")]
                ++ [List.intercalate (lit (",\n")) (cols.map renderColumnDef)]
                ++ [lit (");")]
                ++ fks.map (renderFkClause t)
                ++ [lit ("\n")])) []
  pure (newlineJoin schema_info)

/-- `app.py` `get_db_schema` (lines 50-97): result of the `try` body, or the
sentinel error string produced by the `except` branch. -/
def get_db_schema (insp : Inspector) : PyStr :=
  match get_db_schema_core insp with
  | .ok s => s
  | .error e => lit ("Error: Could not retrieve database schema. Details: ") ++ e

/-- One entry of the structured schema's `"tables"` list. -/
structure TableInfo where
  name : PyStr
  ddl : PyStr
  description : PyStr
  columns : List PyStr
  foreign_keys : List PyStr
deriving DecidableEq

/-- One entry of the structured schema's `"relationships"` list. -/
structure Relationship where
  from_table : PyStr
  from_columns : List PyStr
  to_table : PyStr
  to_columns : List PyStr
  description : PyStr
deriving DecidableEq

/-- The dictionary returned by `get_structured_db_schema`.  The Python success
dict has no `"error"` key; `error = none` models that absence. -/
structure StructuredSchema where
  tables : List TableInfo
  relationships : List Relationship
  error : Option PyStr
deriving DecidableEq

/-- `app.py` lines 140-142: the per-column description used for RAG. -/
def columnDescription (col : Column) : PyStr :=
  let constraints :=
    (if col.primary_key then [lit ("primary key")] else [])
      ++ (if !col.nullable then [lit ("not null")] else [])
  let constraint_desc :=
    if constraints.isEmpty then ([] : PyStr)
    else lit (" (") ++ commaJoin constraints ++ lit (")")
  col.name ++ lit (" (") ++ col.ctype ++ lit (")") ++ constraint_desc

/-- `app.py` lines 119-146: the base `CREATE TABLE` rendering of one table. -/
def baseTableDdl (t : PyStr) (cols : List Column) : PyStr :=
  newlineJoin
    [ lit ("CREATE TABLE ") ++ t ++ lit (" ("),
      List.intercalate (lit (",\n")) (cols.map renderColumnDef),
      lit (");") ]

/-- `app.py` line 160: each foreign-key clause is appended to the table DDL
on its own line. -/
def tableDdlWithFks (t : PyStr) (cols : List Column) (fks : List ForeignKey) : PyStr :=
  fks.foldl (fun d fk => d ++ lit ("\n") ++ renderFkClause t fk) (baseTableDdl t cols)

/-- `app.py` line 163: the relationship description string. -/
def fkDescription (t : PyStr) (fk : ForeignKey) : PyStr :=
  t ++ lit (".") ++ commaJoin fk.constrained_columns ++ lit (" -> ")
    ++ fk.referred_table ++ lit (".") ++ commaJoin fk.referred_columns

/-- `app.py` lines 165-171: the relationship record appended for one FK. -/
def mkRelationship (t : PyStr) (fk : ForeignKey) : Relationship :=
  { from_table := t
    from_columns := fk.constrained_columns
    to_table := fk.referred_table
    to_columns := fk.referred_columns
    description := fkDescription t fk }

/-- `app.py` lines 117-180: the `try` body of `get_structured_db_schema`,
accumulating the `"tables"` and `"relationships"` lists in table order. -/
def get_structured_db_schema_core (insp : Inspector) :
    Except PyStr (List TableInfo × List Relationship) := do
  let table_names ← insp.get_table_names
  table_names.foldlM (fun (acc : List TableInfo × List Relationship) t => do
      let cols ← insp.get_columns t
      let fks ← insp.get_foreign_keys t
      let column_descriptions := cols.map columnDescription
      let tinfo : TableInfo :=
        { name := t
          ddl := tableDdlWithFks t cols fks
          description := lit ("Table ") ++ t ++ lit (" with columns: ")
            ++ commaJoin column_descriptions
          columns := column_descriptions
          foreign_keys := fks.map (fkDescription t) }
      pure (acc.1 ++ [tinfo], acc.2 ++ fks.map (mkRelationship t))) ([], [])

/-- `app.py` `get_structured_db_schema` (lines 99-190): the structured dict on
success, or the `except` branch's dict with empty lists and an `"error"` key. -/
def get_structured_db_schema (insp : Inspector) : StructuredSchema :=
  match get_structured_db_schema_core insp with
  | .ok p => { tables := p.1, relationships := p.2, error := none }
  | .error e =>
    { tables := []
      relationships := []
      error := some (lit ("Could not retrieve database schema. Details: ") ++ e) }

/-- Metadata attached to one indexed document (`chroma_utils.py` lines 92/100). -/
structure Metadata where
  kind : PyStr
  table_name : Option PyStr
deriving DecidableEq

/-- One document as assembled by `add_schema_to_chroma` before upserting. -/
structure IndexedDocument where
  id : PyStr
  content : PyStr
  metadata : Metadata
deriving DecidableEq

/-- `chroma_utils.py` line 93: the id of the table document at ordinal `i`. -/
def tableDocId (name : PyStr) (i : Nat) : PyStr :=
  lit ("schema_table_") ++ name ++ lit ("_") ++ natStr i

/-- `chroma_utils.py` line 101: the id of the relationship document at ordinal `i`. -/
def relDocId (i : Nat) : PyStr := lit ("schema_rel_") ++ natStr i

/-- `chroma_utils.py` lines 83-93: `for i, table in enumerate(tables)`,
starting the enumeration at index `i`. -/
def tableDocsFrom : Nat → List TableInfo → List IndexedDocument
  | _, [] => []
  | i, t :: rest =>
      { id := tableDocId t.name i
        content := lit ("Table: ") ++ t.name ++ lit ("\nDDL: ") ++ t.ddl
          ++ lit ("\nDescription: ") ++ t.description
        metadata := { kind := lit ("table_schema"), table_name := some t.name } }
        :: tableDocsFrom (i + 1) rest

/-- `chroma_utils.py` lines 96-101: `for i, rel in enumerate(relationships)`. -/
def relDocsFrom : Nat → List Relationship → List IndexedDocument
  | _, [] => []
  | i, r :: rest =>
      { id := relDocId i
        content := r.description
        metadata := { kind := lit ("relationship"), table_name := none } }
        :: relDocsFrom (i + 1) rest

/-- `chroma_utils.py` lines 78-101: the full document batch built from one
structured schema (table documents first, then relationship documents). -/
def buildDocuments (s : StructuredSchema) : List IndexedDocument :=
  tableDocsFrom 0 s.tables ++ relDocsFrom 0 s.relationships

/-- One stored record of the vector index: document text, metadata, and its
embedding vector (`collection.upsert` stores all three per id). -/
structure Entry where
  document : PyStr
  metadata : Metadata
  embedding : List Int
deriving DecidableEq

/-- The queryable state of the collection: a map from document id to entry. -/
def Store := PyStr → Option Entry

/-- Upsert of a single id (insert-or-replace). -/
def updateStore (st : Store) (i : PyStr) (e : Entry) : Store :=
  fun j => if j = i then some e else st j

/-- `collection.upsert` over a batch: later entries for the same id win. -/
def upsertBatch (st : Store) (batch : List (PyStr × Entry)) : Store :=
  batch.foldl (fun s p => updateStore s p.1 p.2) st

/-- `chroma_utils.py` line 109: pair every document with its entry, embedding
the document content with the provider `embed`. -/
def docEntries (embed : PyStr → List Int) (docs : List IndexedDocument) :
    List (PyStr × Entry) :=
  docs.map fun d =>
    (d.id, { document := d.content, metadata := d.metadata, embedding := embed d.content })

/-- `chroma_utils.py` `add_schema_to_chroma` (lines 52-120): build the batch
from the structured schema and upsert it; an empty batch performs no upsert. -/
def add_schema_to_chroma (embed : PyStr → List Int) (st : Store)
    (s : StructuredSchema) : Store :=
  if buildDocuments s = [] then st
  else upsertBatch st (docEntries embed (buildDocuments s))

/-- The persisted collection content, as reopened by `client.get_collection`. -/
structure Collection where
  entries : List (PyStr × Entry)
deriving Inhabited

/-- The result dict of `collection.query` (parallel outer lists, one inner
list per query embedding; a single query embedding is passed here). -/
structure QueryResults where
  documents : List (List PyStr)
  metadatas : List (List Metadata)
  distances : List (List Int)

/-- Squared L2 distance between two integer-modelled vectors. -/
def sqDist (u v : List Int) : Int :=
  ((u.zip v).map fun p => (p.1 - p.2) * (p.1 - p.2)).sum

/-- Insert one (distance, entry) pair into a distance-ascending list. -/
def insertRanked (p : Int × Entry) : List (Int × Entry) → List (Int × Entry)
  | [] => [p]
  | q :: qs => if p.1 < q.1 then p :: q :: qs else q :: insertRanked p qs

/-- Sort (distance, entry) pairs by ascending distance. -/
def rankAsc (l : List (Int × Entry)) : List (Int × Entry) := l.foldr insertRanked []

/-- Modelled from the spec: the external ChromaDB `collection.query` call is
not part of this repository; §4.3 specifies "at most k nearest neighbors by
the store's configured distance metric", truncating rather than erroring when
k exceeds the collection size.  An empty collection therefore yields one empty
inner `documents` list. -/
def Collection.queryNearest (c : Collection) (qe : List Int) (n : Nat) : QueryResults :=
  let ranked := (rankAsc (c.entries.map fun p => (sqDist qe p.2.embedding, p.2))).take n
  { documents := [ranked.map fun p => p.2.document]
    metadatas := [ranked.map fun p => p.2.metadata]
    distances := [ranked.map fun p => p.1] }

/-- `chroma_utils.py` `query_schema_from_chroma` (lines 123-164): an absent
collection (`get_collection` raising) returns `[]`; otherwise the snippets
are the documents of the first (only) inner result list. -/
def query_schema_from_chroma (coll : Option Collection) (query_embedding : List Int)
    (n_results : Nat) : List PyStr :=
  match coll with
  | none => []
  | some c =>
    let results := c.queryNearest query_embedding n_results
    match results.documents with
    | [] => []
    | d0 :: _ => d0

/-- `app.py` lines 29/222: `DATABASE_URI.split(":")[0].split("+")[0]`. -/
def llm_db_type_of (uri : PyStr) : PyStr :=
  (uri.takeWhile (fun c => c ≠ ':')).takeWhile (fun c => c ≠ '+')

/-- `app.py` lines 245-258: the generation prompt template (an f-string that
begins and ends with a newline). -/
def full_prompt_for_ollama (llm_db_type schema_context user_query : PyStr) : PyStr :=
  lit ("\nYou are an expert SQL query generator.\nYour task is to convert natural language questions into SQL queries for a ")
    ++ llm_db_type
    ++ lit (" database.\nYou must only return the SQL query and nothing else.\nFocus only on the tables and columns provided in the schema below that are relevant to the user\x27s question.\n\nHere is the database schema:\n```sql\n")
    ++ schema_context
    ++ lit ("\n```\n\nBased on this schema, generate a SQL query for the following natural language question:\n")
    ++ user_query
    ++ lit ("\n")

/-- The value found at `output.results.message.data.text` in one element of the
Langflow response's `outputs` list; `none` when `results` or `message` is
missing or falsy. -/
structure LangflowOutput where
  results_message_text : Option PyStr
deriving DecidableEq

/-- The decoded JSON body of the Langflow response. -/
structure LangflowResult where
  outputs : List LangflowOutput
deriving DecidableEq

/-- `app.py` lines 288-293: start from the sentinel string, take the stripped
text of the first output that has truthy `results` and `message`. -/
def extract_generated_sql (res : LangflowResult) : PyStr :=
  match res.outputs.findSome? (fun o => o.results_message_text) with
  | some t => pyStrip t
  | none => lit ("Error: Could not extract SQL from Langflow response.")

/-- `app.py` lines 297-299: strip a ```sql fenced block
(`generated_sql[6:-3].strip()` under the prefix/suffix test). -/
def cleanup_sql (s : PyStr) : PyStr :=
  if (lit ("```sql")).isPrefixOf s && (lit ("```")).isSuffixOf s then
    pyStrip (pyDropRight (s.drop 6) 3)
  else s

/-- Failure modes of the HTTP call to the Langflow gateway
(`requests.exceptions.ConnectionError` is matched before the general
`RequestException`). -/
inductive LangflowFailure where
  | connection : LangflowFailure
  | request : PyStr → LangflowFailure
deriving DecidableEq

/-- The error response FastAPI's `HTTPException` carries. -/
structure HttpError where
  status_code : Nat
  detail : PyStr
deriving DecidableEq

/-- The success response model (`QueryResponse` in `app.py`); a row is a
mapping from column name to a rendered value. -/
structure QueryResponse where
  sql_query : PyStr
  query_result : List (List (PyStr × PyStr))
deriving DecidableEq

/-- The external collaborators and configuration one `/query-database`
request sees: the SQLAlchemy inspector, the configured database URI, the
persisted Chroma collection (absent when never created), the embedding
provider, the Langflow gateway, and the SQL executor. -/
structure ServeEnv where
  insp : Inspector
  database_uri : PyStr
  collection : Option Collection
  embedQuery : PyStr → List Int
  langflow : PyStr → Except LangflowFailure LangflowResult
  execute_sql : PyStr → Except PyStr (List (List (PyStr × PyStr)))

/-- `app.py` lines 232-240: retrieve snippets and pick the schema context
(`"\n".join(snippets) if snippets else full_db_schema`). -/
def schema_context_for_llm (env : ServeEnv) (user_query : PyStr) : PyStr :=
  let snippets := query_schema_from_chroma env.collection (env.embedQuery user_query) 5
  if snippets.isEmpty then get_db_schema env.insp else newlineJoin snippets

/-- `app.py` lines 277-331: the request tail from the Langflow call onward.
The payload is the stripped prompt.  A database-execution failure raises
`HTTPException` inside the outer `try`, so it is re-caught by the generic
`except Exception` handler and re-wrapped (Starlette renders the caught
exception as `"500: <detail>"`). -/
def generation_and_execution (env : ServeEnv) (full_prompt : PyStr) :
    Except HttpError QueryResponse :=
  match env.langflow (pyStrip full_prompt) with
  | .error .connection =>
    .error { status_code := 500
             detail := lit ("Could not connect to Langflow API. Is Langflow running?") }
  | .error (.request e) =>
    .error { status_code := 500, detail := lit ("Error from Langflow API: ") ++ e }
  | .ok res =>
    let generated_sql := cleanup_sql (extract_generated_sql res)
    match env.execute_sql generated_sql with
    | .error db_err =>
      .error { status_code := 500
               detail := lit ("An unexpected error occurred: 500: Database query failed. Possible invalid SQL: ") ++ db_err }
    | .ok rows => .ok { sql_query := generated_sql, query_result := rows }

/-- `app.py` `query_database` (lines 212-331): fail with HTTP 500 when the
schema string is the introspection-error sentinel, otherwise assemble the
prompt from the retrieved (or fallback) schema context and run the tail. -/
def query_database (env : ServeEnv) (user_query : PyStr) :
    Except HttpError QueryResponse :=
  if (lit ("Error")).isPrefixOf (get_db_schema env.insp) then
    .error { status_code := 500, detail := get_db_schema env.insp }
  else
    generation_and_execution env
      (full_prompt_for_ollama (llm_db_type_of env.database_uri)
        (schema_context_for_llm env user_query) user_query)

/-- A string with no leading and no trailing Python whitespace. -/
def noEdgeSpace (s : PyStr) : Prop :=
  s.dropWhile isPySpace = s ∧ s.reverse.dropWhile isPySpace = s.reverse

/-- The fields of a table entry that the document builder reads. -/
def tableKey (t : TableInfo) : PyStr × PyStr × PyStr := (t.name, t.ddl, t.description)

/-- The table-document ids as a function of table names and ordinals alone. -/
def tableIdsSpec : Nat → List PyStr → List PyStr
  | _, [] => []
  | i, n :: rest => tableDocId n i :: tableIdsSpec (i + 1) rest

/-- The relationship-document ids as a function of the ordinal alone. -/
def relIdsSpec : Nat → Nat → List PyStr
  | _, 0 => []
  | i, k + 1 => relDocId i :: relIdsSpec (i + 1) k

/-- The last value a batch assigns to id `j`, if any (later entries win). -/
def lastVal : List (PyStr × Entry) → PyStr → Option Entry
  | [], _ => none
  | p :: rest, j =>
    match lastVal rest j with
    | some v => some v
    | none => if j = p.1 then some p.2 else none

/-- Number of (possibly overlapping) occurrences of `pat` in a string. -/
def countOccurrences (pat : PyStr) : PyStr → Nat
  | [] => 0
  | c :: rest => (if pat.isPrefixOf (c :: rest) then 1 else 0) + countOccurrences pat rest

/-- Index of the first occurrence of `pat` (the string length when absent). -/
def subIndex (pat : PyStr) : PyStr → Nat
  | [] => 0
  | c :: rest => if pat.isPrefixOf (c :: rest) then 0 else subIndex pat rest + 1

/-- The two-column table of the spec's round-trip property. -/
def sampleColumns : List Column :=
  [ { name := lit ("EmployeeID"), ctype := lit ("INTEGER")
      primary_key := true, nullable := false },
    { name := lit ("FirstName"), ctype := lit ("TEXT")
      primary_key := false, nullable := false } ]

/-- An inspector over a healthy one-table database. -/
def sampleInspector : Inspector :=
  { get_table_names := .ok [lit ("Employees")]
    get_columns := fun _ => .ok sampleColumns
    get_foreign_keys := fun _ => .ok [] }

/-- An inspector whose connection cannot be opened (the first metadata call
raises). -/
def failInspector : Inspector :=
  { get_table_names := .error (lit ("connection refused"))
    get_columns := fun _ => .ok []
    get_foreign_keys := fun _ => .ok [] }

/-- An inspector that fails midway through metadata enumeration. -/
def failInspectorMeta : Inspector :=
  { get_table_names := .ok [lit ("Employees")]
    get_columns := fun _ => .error (lit ("metadata enumeration failed"))
    get_foreign_keys := fun _ => .ok [] }

/-- The structured snapshot extracted from the sample database. -/
def sampleSnapshot : StructuredSchema := get_structured_db_schema sampleInspector

/-- A serving environment whose vector collection was never created. -/
def envEmptyIndex : ServeEnv :=
  { insp := sampleInspector
    database_uri := lit ("sqlite:///./my_test_database.db")
    collection := none
    embedQuery := fun _ => []
    langflow := fun _ => .error .connection
    execute_sql := fun _ => .ok [] }

/-- A serving environment whose generation gateway answers with a response
carrying no extractable SQL text, over a database that accepts any query
string (so the pipeline's own treatment of the missing text is isolated). -/
def envNoSqlText : ServeEnv :=
  { insp := sampleInspector
    database_uri := lit ("sqlite:///./my_test_database.db")
    collection := none
    embedQuery := fun _ => []
    langflow := fun _ => .ok { outputs := [ { results_message_text := none } ] }
    execute_sql := fun _ => .ok [] }

/-- A serving environment over a database whose connection is refused. -/
def envBrokenDb : ServeEnv :=
  { insp := failInspector
    database_uri := lit ("sqlite:///./my_test_database.db")
    collection := none
    embedQuery := fun _ => []
    langflow := fun _ => .error .connection
    execute_sql := fun _ => .ok [] }

/-- A serving environment over a database whose metadata enumeration fails. -/
def envBrokenMeta : ServeEnv :=
  { insp := failInspectorMeta
    database_uri := lit ("sqlite:///./my_test_database.db")
    collection := none
    embedQuery := fun _ => []
    langflow := fun _ => .error .connection
    execute_sql := fun _ => .ok [] }

/-! ### Theorems -/

theorem dropWhile_head?_false (p : Char → Bool) :
    ∀ (l : PyStr) (c : Char), (l.dropWhile p).head? = some c → p c = false := by
  intro l
  induction l with
  | nil => simp [List.dropWhile]
  | cons a t ih =>
    intro c h
    rw [List.dropWhile_cons] at h
    by_cases hp : p a
    · rw [if_pos hp] at h
      exact ih c h
    · rw [if_neg hp] at h
      obtain rfl : a = c := by simpa using h
      simpa using hp

theorem dropWhile_eq_self_of_head (p : Char → Bool) (l : PyStr)
    (h : ∀ c, l.head? = some c → p c = false) : l.dropWhile p = l := by
  cases l with
  | nil => rfl
  | cons a t =>
    rw [List.dropWhile_cons, if_neg]
    simp [h a rfl]

theorem dropWhile_idem (p : Char → Bool) (l : PyStr) :
    (l.dropWhile p).dropWhile p = l.dropWhile p :=
  dropWhile_eq_self_of_head p _ (fun c hc => dropWhile_head?_false p l c hc)

/-- `pyStrip` leaves no leading or trailing whitespace. -/
theorem noEdgeSpace_pyStrip (s : PyStr) : noEdgeSpace (pyStrip s) := by
  unfold pyStrip noEdgeSpace
  constructor
  · apply dropWhile_eq_self_of_head
    intro c hc
    obtain ⟨w, hw⟩ :=
      (List.dropWhile_suffix (l := (s.dropWhile isPySpace).reverse) isPySpace)
    have hA : s.dropWhile isPySpace =
        ((s.dropWhile isPySpace).reverse.dropWhile isPySpace).reverse ++ w.reverse := by
      have h2 := congrArg List.reverse hw
      rw [List.reverse_append, List.reverse_reverse] at h2
      exact h2.symm
    have hAhead : (s.dropWhile isPySpace).head? = some c := by
      rw [hA]
      cases hBrev : ((s.dropWhile isPySpace).reverse.dropWhile isPySpace).reverse with
      | nil => rw [hBrev] at hc; simp at hc
      | cons x xs =>
        rw [hBrev] at hc
        simp only [List.head?_cons, Option.some.injEq] at hc
        simp [hc]
    exact dropWhile_head?_false isPySpace s c hAhead
  · rw [List.reverse_reverse]
    exact dropWhile_idem isPySpace (s.dropWhile isPySpace).reverse

/-- The cleanup step on a response wrapped in a ```sql fenced block strips the
fence markers and the surrounding whitespace of the inner text. -/
theorem cleanup_sql_fenced (s : PyStr) :
    cleanup_sql (lit ("```sql") ++ s ++ lit ("```")) = pyStrip s := by
  have hpre : (lit ("```sql")).isPrefixOf (lit ("```sql") ++ s ++ lit ("```")) = true := by
    rw [List.isPrefixOf_iff_prefix]
    exact List.prefix_append _ _
  have hsuf : (lit ("```")).isSuffixOf (lit ("```sql") ++ s ++ lit ("```")) = true := by
    rw [List.isSuffixOf_iff_suffix]
    exact List.suffix_append _ _
  unfold cleanup_sql
  rw [hpre, hsuf]
  simp only [Bool.and_self, if_true]
  have h6 : (lit ("```sql")).length = 6 := rfl
  rw [List.append_assoc, List.drop_left' h6]
  have hdr : pyDropRight (s ++ lit ("```")) 3 = s := by
    unfold pyDropRight
    rw [List.length_append]
    show (s ++ lit ("```")).take (s.length + 3 - 3) = s
    rw [Nat.add_sub_cancel]
    exact List.take_left s _
  rw [hdr]

theorem tableDocsFrom_congr :
    ∀ (i : Nat) (l₁ l₂ : List TableInfo), l₁.map tableKey = l₂.map tableKey →
      tableDocsFrom i l₁ = tableDocsFrom i l₂ := by
  intro i l₁
  induction l₁ generalizing i with
  | nil =>
    intro l₂ h
    cases l₂ with
    | nil => rfl
    | cons b t2 => simp at h
  | cons a t1 ih =>
    intro l₂ h
    cases l₂ with
    | nil => simp at h
    | cons b t2 =>
      simp only [List.map_cons, List.cons.injEq] at h
      obtain ⟨hk, ht⟩ := h
      unfold tableKey at hk
      simp only [Prod.mk.injEq] at hk
      obtain ⟨hn, hd, hdesc⟩ := hk
      simp only [tableDocsFrom]
      rw [hn, hd, hdesc, ih (i + 1) t2 ht]

theorem relDocsFrom_congr :
    ∀ (i : Nat) (l₁ l₂ : List Relationship),
      l₁.map Relationship.description = l₂.map Relationship.description →
      relDocsFrom i l₁ = relDocsFrom i l₂ := by
  intro i l₁
  induction l₁ generalizing i with
  | nil =>
    intro l₂ h
    cases l₂ with
    | nil => rfl
    | cons b t2 => simp at h
  | cons a t1 ih =>
    intro l₂ h
    cases l₂ with
    | nil => simp at h
    | cons b t2 =>
      simp only [List.map_cons, List.cons.injEq] at h
      obtain ⟨hk, ht⟩ := h
      simp only [relDocsFrom]
      rw [hk, ih (i + 1) t2 ht]

theorem tableDocsFrom_ids :
    ∀ (i : Nat) (l : List TableInfo),
      (tableDocsFrom i l).map IndexedDocument.id = tableIdsSpec i (l.map TableInfo.name) := by
  intro i l
  induction l generalizing i with
  | nil => rfl
  | cons a t ih => simp only [tableDocsFrom, List.map_cons, tableIdsSpec, ih]

theorem relDocsFrom_ids :
    ∀ (i : Nat) (l : List Relationship),
      (relDocsFrom i l).map IndexedDocument.id = relIdsSpec i l.length := by
  intro i l
  induction l generalizing i with
  | nil => rfl
  | cons a t ih => simp only [relDocsFrom, List.map_cons, List.length_cons, relIdsSpec, ih]

theorem upsertBatch_lookup :
    ∀ (batch : List (PyStr × Entry)) (st : Store) (j : PyStr),
      upsertBatch st batch j =
        match lastVal batch j with
        | some v => some v
        | none => st j := by
  intro batch
  induction batch with
  | nil => intro st j; rfl
  | cons p rest ih =>
    intro st j
    show upsertBatch (updateStore st p.1 p.2) rest j = _
    rw [ih]
    simp only [lastVal]
    cases lastVal rest j with
    | some v => rfl
    | none =>
      simp only [updateStore]
      by_cases hj : j = p.1
      · rw [if_pos hj, if_pos hj]
      · rw [if_neg hj, if_neg hj]

/-- Re-upserting the same batch leaves the queryable state unchanged. -/
theorem upsertBatch_idem (st : Store) (batch : List (PyStr × Entry)) :
    upsertBatch (upsertBatch st batch) batch = upsertBatch st batch := by
  funext j
  rw [upsertBatch_lookup, upsertBatch_lookup]
  cases lastVal batch j with
  | some v => rfl
  | none => rfl

/-- C9: for a table with columns (EmployeeID, INTEGER, primary key, not null)
and (FirstName, TEXT, not null) and no foreign keys, the rendered DDL — both
the flat `get_db_schema` rendering and the per-table DDL used by
`get_structured_db_schema` — contains exactly one `PRIMARY KEY` marker and
exactly two `NOT NULL` markers, with the columns in declaration order. -/
theorem render_round_trip_markers :
    countOccurrences (lit ("PRIMARY KEY")) (get_db_schema sampleInspector) = 1
    ∧ countOccurrences (lit ("NOT NULL")) (get_db_schema sampleInspector) = 2
    ∧ subIndex (lit ("EmployeeID")) (get_db_schema sampleInspector)
        < subIndex (lit ("FirstName")) (get_db_schema sampleInspector)
    ∧ countOccurrences (lit ("PRIMARY KEY")) (tableDdlWithFks (lit ("Employees")) sampleColumns []) = 1
    ∧ countOccurrences (lit ("NOT NULL")) (tableDdlWithFks (lit ("Employees")) sampleColumns []) = 2
    ∧ subIndex (lit ("EmployeeID")) (tableDdlWithFks (lit ("Employees")) sampleColumns [])
        < subIndex (lit ("FirstName")) (tableDdlWithFks (lit ("Employees")) sampleColumns []) := by
  decide

/-- C7 counterexample: the code does NOT synthesize a fallback constraint id
for a foreign key whose backend reports no name; it interpolates Python's
`None` into the rendered DDL, yielding `ADD CONSTRAINT None`. -/
theorem unnamed_fk_renders_literal_none_concrete :
    renderFkClause (lit ("Employees"))
      { name := none
        constrained_columns := [lit ("DepartmentID")]
        referred_table := lit ("Departments")
        referred_columns := [lit ("DepartmentID")] } =
      lit ("ALTER TABLE Employees ADD CONSTRAINT None FOREIGN KEY (DepartmentID) REFERENCES Departments (DepartmentID);") := by
  decide

/-- C7 (amended): for every foreign key whose backend reports no explicit
constraint name, the rendered clause carries the literal token `None` as the
constraint name (Python's rendering of the missing value); no deterministic
fallback id is synthesized. -/
theorem unnamed_fk_renders_none (t : PyStr) (fk : ForeignKey) (h : fk.name = none) :
    (lit (" ADD CONSTRAINT None FOREIGN KEY (")) <:+: renderFkClause t fk := by
  refine ⟨lit ("ALTER TABLE ") ++ t,
    commaJoin fk.constrained_columns ++ lit (") REFERENCES ") ++ fk.referred_table
      ++ lit (" (") ++ commaJoin fk.referred_columns ++ lit (");"), ?_⟩
  have hsplit : lit (" ADD CONSTRAINT None FOREIGN KEY (") =
      lit (" ADD CONSTRAINT ") ++ lit ("None") ++ lit (" FOREIGN KEY (") := rfl
  simp only [renderFkClause, pyStrOfOpt, h, hsplit]
  simp [List.append_assoc]

theorem unnamed_fk_renders_none_witness :
    (lit (" ADD CONSTRAINT None FOREIGN KEY (")) <:+:
      renderFkClause (lit ("Orders"))
        { name := none
          constrained_columns := [lit ("CustomerID")]
          referred_table := lit ("Customers")
          referred_columns := [lit ("CustomerID")] } :=
  unnamed_fk_renders_none (lit ("Orders"))
    { name := none
      constrained_columns := [lit ("CustomerID")]
      referred_table := lit ("Customers")
      referred_columns := [lit ("CustomerID")] } rfl

/-- C10: `get_structured_db_schema` never raises: it always returns a
dictionary with a tables list and a relationships list, and either the
extraction succeeded and the error key is absent (so the lists are exactly
the extracted ones), or the error key is present and both lists are empty —
failure is detectable only through the error key. -/
theorem structured_schema_error_key_detects_failure (insp : Inspector) :
    ((get_structured_db_schema insp).error = none
      ∧ get_structured_db_schema_core insp =
          .ok ((get_structured_db_schema insp).tables,
               (get_structured_db_schema insp).relationships))
    ∨ ((get_structured_db_schema insp).error.isSome = true
      ∧ (get_structured_db_schema insp).tables = []
      ∧ (get_structured_db_schema insp).relationships = []) := by
  unfold get_structured_db_schema
  cases h : get_structured_db_schema_core insp with
  | ok p => exact Or.inl ⟨rfl, rfl⟩
  | error e => exact Or.inr ⟨rfl, rfl, rfl⟩

/-- C3 counterexample: on a connection failure, `get_structured_db_schema`
does not deliver an exception to the caller — it returns (normally) a
snapshot-shaped dictionary, and `get_db_schema` returns a sentinel string; no
`SchemaIntrospectionError` exists anywhere in the code. -/
theorem introspection_failure_returns_value_concrete :
    get_structured_db_schema failInspector =
      { tables := [], relationships := []
        error := some (lit ("Could not retrieve database schema. Details: ")
          ++ lit ("connection refused")) }
    ∧ get_db_schema failInspector =
        lit ("Error: Could not retrieve database schema. Details: ")
          ++ lit ("connection refused") :=
  ⟨rfl, rfl⟩

/-- C3 (amended): when introspection fails, the caller receives an explicit
error value rather than a snapshot — `get_structured_db_schema` returns the
dictionary with BOTH lists empty and an error key carrying the detail (never
a partially filled snapshot), and `get_db_schema` returns an
"Error:"-prefixed sentinel string; neither function raises. -/
theorem introspection_failure_explicit_error_never_partial
    (insp : Inspector) (e e2 : PyStr)
    (hs : get_structured_db_schema_core insp = .error e)
    (hd : get_db_schema_core insp = .error e2) :
    (get_structured_db_schema insp).tables = []
    ∧ (get_structured_db_schema insp).relationships = []
    ∧ (get_structured_db_schema insp).error =
        some (lit ("Could not retrieve database schema. Details: ") ++ e)
    ∧ get_db_schema insp = lit ("Error: Could not retrieve database schema. Details: ") ++ e2 := by
  unfold get_structured_db_schema get_db_schema
  rw [hs, hd]
  exact ⟨rfl, rfl, rfl, rfl⟩

theorem introspection_failure_explicit_error_never_partial_witness :
    (get_structured_db_schema failInspectorMeta).tables = []
    ∧ (get_structured_db_schema failInspectorMeta).relationships = []
    ∧ (get_structured_db_schema failInspectorMeta).error =
        some (lit ("Could not retrieve database schema. Details: ")
          ++ lit ("metadata enumeration failed"))
    ∧ get_db_schema failInspectorMeta =
        lit ("Error: Could not retrieve database schema. Details: ")
          ++ lit ("metadata enumeration failed") :=
  introspection_failure_explicit_error_never_partial failInspectorMeta
    (lit ("metadata enumeration failed")) (lit ("metadata enumeration failed"))
    rfl rfl

/-- C5: the document builder is a deterministic function of the snapshot: its
output depends only on each table's (name, ddl, description) and each
relationship's description, so in particular two runs over the same snapshot
(same table keys, same relationship descriptions) produce byte-identical
document contents and identical ids. -/
theorem document_builder_deterministic (s₁ s₂ : StructuredSchema)
    (ht : s₁.tables.map tableKey = s₂.tables.map tableKey)
    (hr : s₁.relationships.map Relationship.description
        = s₂.relationships.map Relationship.description) :
    buildDocuments s₁ = buildDocuments s₂
    ∧ (buildDocuments s₁).map IndexedDocument.id
        = (buildDocuments s₂).map IndexedDocument.id
    ∧ (buildDocuments s₁).map IndexedDocument.content
        = (buildDocuments s₂).map IndexedDocument.content := by
  have h : buildDocuments s₁ = buildDocuments s₂ := by
    unfold buildDocuments
    rw [tableDocsFrom_congr 0 _ _ ht, relDocsFrom_congr 0 _ _ hr]
  exact ⟨h, by rw [h], by rw [h]⟩

theorem document_builder_deterministic_witness :
    buildDocuments sampleSnapshot = buildDocuments sampleSnapshot
    ∧ (buildDocuments sampleSnapshot).map IndexedDocument.id
        = (buildDocuments sampleSnapshot).map IndexedDocument.id
    ∧ (buildDocuments sampleSnapshot).map IndexedDocument.content
        = (buildDocuments sampleSnapshot).map IndexedDocument.content :=
  document_builder_deterministic sampleSnapshot sampleSnapshot rfl rfl

/-- C6: document ids are deterministic functions of (table name, ordinal) for
table documents and of the ordinal alone for relationship documents, and
re-upserting the same snapshot's batch (same ids, contents, metadata and
embedding vectors) leaves the vector index's queryable state unchanged. -/
theorem document_ids_deterministic_and_upsert_idempotent
    (s : StructuredSchema) (embed : PyStr → List Int) (st : Store) :
    (buildDocuments s).map IndexedDocument.id =
      tableIdsSpec 0 (s.tables.map TableInfo.name) ++ relIdsSpec 0 s.relationships.length
    ∧ add_schema_to_chroma embed (add_schema_to_chroma embed st s) s =
        add_schema_to_chroma embed st s := by
  constructor
  · unfold buildDocuments
    rw [List.map_append, tableDocsFrom_ids, relDocsFrom_ids]
  · unfold add_schema_to_chroma
    by_cases h : buildDocuments s = []
    · simp only [if_pos h]
    · simp only [if_neg h]
      exact upsertBatch_idem st (docEntries embed (buildDocuments s))

/-- C2: if the vector-index query returns zero documents (absent collection
or empty index), the retriever returns an empty list rather than raising, and
the request pipeline uses the full unfiltered schema rendering as the schema
context for the prompt, proceeding into generation rather than failing. -/
theorem empty_retrieval_falls_back_to_full_schema (env : ServeEnv) (user_query : PyStr)
    (hcoll : env.collection = none ∨ env.collection = some { entries := [] })
    (hok : (lit ("Error")).isPrefixOf (get_db_schema env.insp) = false) :
    query_schema_from_chroma env.collection (env.embedQuery user_query) 5 = []
    ∧ schema_context_for_llm env user_query = get_db_schema env.insp
    ∧ query_database env user_query =
        generation_and_execution env
          (full_prompt_for_ollama (llm_db_type_of env.database_uri)
            (get_db_schema env.insp) user_query) := by
  have hsn : query_schema_from_chroma env.collection (env.embedQuery user_query) 5 = [] := by
    rcases hcoll with h | h <;> rw [h] <;> rfl
  have hctx : schema_context_for_llm env user_query = get_db_schema env.insp := by
    unfold schema_context_for_llm
    rw [hsn]
    rfl
  refine ⟨hsn, hctx, ?_⟩
  unfold query_database
  rw [hok, hctx]
  simp

theorem empty_retrieval_falls_back_to_full_schema_witness :
    query_schema_from_chroma envEmptyIndex.collection
        (envEmptyIndex.embedQuery (lit ("show employees"))) 5 = []
    ∧ schema_context_for_llm envEmptyIndex (lit ("show employees"))
        = get_db_schema envEmptyIndex.insp
    ∧ query_database envEmptyIndex (lit ("show employees")) =
        generation_and_execution envEmptyIndex
          (full_prompt_for_ollama (llm_db_type_of envEmptyIndex.database_uri)
            (get_db_schema envEmptyIndex.insp) (lit ("show employees"))) :=
  empty_retrieval_falls_back_to_full_schema envEmptyIndex (lit ("show employees"))
    (Or.inl rfl) (by rfl)

/-- C4 counterexample: with an unreachable database, the serving path fails
the request with HTTP 500 carrying the introspection-error sentinel — it does
not fall back to previously indexed state (none is consulted) and it does not
succeed. -/
theorem serving_path_500_on_introspection_failure_concrete :
    query_database envBrokenDb (lit ("show employees")) =
      .error { status_code := 500
               detail := lit ("Error: Could not retrieve database schema. Details: connection refused") } := by
  rfl

/-- C4 (amended): a schema-introspection failure on the serving path DOES
fail the request: `query_database` returns HTTP 500 carrying the
introspection-error sentinel string, without falling back to the previously
indexed state or to the unfiltered-schema fallback. -/
theorem serving_path_fails_on_introspection_failure
    (env : ServeEnv) (user_query e : PyStr)
    (h : get_db_schema_core env.insp = .error e) :
    query_database env user_query =
      .error { status_code := 500
               detail := lit ("Error: Could not retrieve database schema. Details: ") ++ e } := by
  have hfull : get_db_schema env.insp =
      lit ("Error: Could not retrieve database schema. Details: ") ++ e := by
    unfold get_db_schema
    rw [h]
  have hpre : (lit ("Error")).isPrefixOf (get_db_schema env.insp) = true := by
    rw [hfull]
    rfl
  unfold query_database
  rw [hpre, hfull]
  simp

theorem serving_path_fails_on_introspection_failure_witness :
    query_database envBrokenMeta (lit ("show employees")) =
      .error { status_code := 500
               detail := lit ("Error: Could not retrieve database schema. Details: ")
                 ++ lit ("metadata enumeration failed") } :=
  serving_path_fails_on_introspection_failure envBrokenMeta (lit ("show employees"))
    (lit ("metadata enumeration failed")) rfl

/-- C1 counterexample: when the generation gateway's response shape carries no
extractable SQL text, the pipeline does not fail with a
`GenerationExtractionError` (no such error exists in the code): it proceeds
with the substitute string and — over an executor that accepts any query
string — returns a SUCCESS response whose `sql_query` is the substitute. -/
theorem no_extractable_text_yields_substitute_success :
    query_database envNoSqlText (lit ("list employees")) =
      .ok { sql_query := lit ("Error: Could not extract SQL from Langflow response.")
            query_result := [] } := by
  rfl

/-- C1 (amended): the output-cleanup step on a response wrapped in a ```sql
fenced block yields the inner SQL with the fence markers stripped and no
leading or trailing whitespace; but when no SQL text can be located in the
response shape, extraction yields the substitute string
"Error: Could not extract SQL from Langflow response." and the pipeline
proceeds with it instead of failing with a `GenerationExtractionError`. -/
theorem cleanup_fenced_and_missing_text_substitute (s : PyStr) (res : LangflowResult)
    (h : res.outputs.findSome? (fun o => o.results_message_text) = none) :
    cleanup_sql (lit ("```sql") ++ s ++ lit ("```")) = pyStrip s
    ∧ noEdgeSpace (cleanup_sql (lit ("```sql") ++ s ++ lit ("```")))
    ∧ extract_generated_sql res =
        lit ("Error: Could not extract SQL from Langflow response.") := by
  refine ⟨cleanup_sql_fenced s, ?_, ?_⟩
  · rw [cleanup_sql_fenced s]
    exact noEdgeSpace_pyStrip s
  · unfold extract_generated_sql
    rw [h]

theorem cleanup_fenced_and_missing_text_substitute_witness :
    cleanup_sql (lit ("```sql") ++ lit ("\nSELECT 1;\n") ++ lit ("```"))
        = pyStrip (lit ("\nSELECT 1;\n"))
    ∧ noEdgeSpace (cleanup_sql (lit ("```sql") ++ lit ("\nSELECT 1;\n") ++ lit ("```")))
    ∧ extract_generated_sql { outputs := [ { results_message_text := none } ] } =
        lit ("Error: Could not extract SQL from Langflow response.") :=
  cleanup_fenced_and_missing_text_substitute (lit ("\nSELECT 1;\n"))
    { outputs := [ { results_message_text := none } ] } rfl

/-- C8: for every dialect, schema context, and question, the assembled
generation prompt is a single string containing the dialect name, the schema
context inside a ```sql fenced code block, the literal question, and the
instruction to return only the SQL query with no prose. -/
theorem prompt_contains_dialect_schema_question
    (dialect schema_context question : PyStr) :
    dialect <:+: full_prompt_for_ollama dialect schema_context question
    ∧ (lit ("```sql\n") ++ schema_context ++ lit ("\n```")) <:+:
        full_prompt_for_ollama dialect schema_context question
    ∧ question <:+: full_prompt_for_ollama dialect schema_context question
    ∧ (lit ("You must only return the SQL query and nothing else.")) <:+:
        full_prompt_for_ollama dialect schema_context question := by
  refine ⟨?_, ?_, ?_, ?_⟩
  · refine ⟨lit ("\nYou are an expert SQL query generator.\nYour task is to convert natural language questions into SQL queries for a "),
      lit (" database.\nYou must only return the SQL query and nothing else.\nFocus only on the tables and columns provided in the schema below that are relevant to the user\x27s question.\n\nHere is the database schema:\n```sql\n")
        ++ schema_context
        ++ lit ("\n```\n\nBased on this schema, generate a SQL query for the following natural language question:\n")
        ++ question ++ lit ("\n"), ?_⟩
    simp only [full_prompt_for_ollama]
    simp [List.append_assoc]
  · refine ⟨lit ("\nYou are an expert SQL query generator.\nYour task is to convert natural language questions into SQL queries for a ")
        ++ dialect
        ++ lit (" database.\nYou must only return the SQL query and nothing else.\nFocus only on the tables and columns provided in the schema below that are relevant to the user\x27s question.\n\nHere is the database schema:\n"),
      lit ("\n\nBased on this schema, generate a SQL query for the following natural language question:\n")
        ++ question ++ lit ("\n"), ?_⟩
    have h2 : lit (" database.\nYou must only return the SQL query and nothing else.\nFocus only on the tables and columns provided in the schema below that are relevant to the user\x27s question.\n\nHere is the database schema:\n```sql\n")
        = lit (" database.\nYou must only return the SQL query and nothing else.\nFocus only on the tables and columns provided in the schema below that are relevant to the user\x27s question.\n\nHere is the database schema:\n")
          ++ lit ("```sql\n") := rfl
    have h3 : lit ("\n```\n\nBased on this schema, generate a SQL query for the following natural language question:\n")
        = lit ("\n```")
          ++ lit ("\n\nBased on this schema, generate a SQL query for the following natural language question:\n") := rfl
    simp only [full_prompt_for_ollama, h2, h3]
    simp [List.append_assoc]
  · refine ⟨lit ("\nYou are an expert SQL query generator.\nYour task is to convert natural language questions into SQL queries for a ")
        ++ dialect
        ++ lit (" database.\nYou must only return the SQL query and nothing else.\nFocus only on the tables and columns provided in the schema below that are relevant to the user\x27s question.\n\nHere is the database schema:\n```sql\n")
        ++ schema_context
        ++ lit ("\n```\n\nBased on this schema, generate a SQL query for the following natural language question:\n"),
      lit ("\n"), ?_⟩
    simp only [full_prompt_for_ollama]
  · refine ⟨lit ("\nYou are an expert SQL query generator.\nYour task is to convert natural language questions into SQL queries for a ")
        ++ dialect ++ lit (" database.\n"),
      lit ("\nFocus only on the tables and columns provided in the schema below that are relevant to the user\x27s question.\n\nHere is the database schema:\n```sql\n")
        ++ schema_context
        ++ lit ("\n```\n\nBased on this schema, generate a SQL query for the following natural language question:\n")
        ++ question ++ lit ("\n"), ?_⟩
    have h4 : lit (" database.\nYou must only return the SQL query and nothing else.\nFocus only on the tables and columns provided in the schema below that are relevant to the user\x27s question.\n\nHere is the database schema:\n```sql\n")
        = lit (" database.\n")
          ++ lit ("You must only return the SQL query and nothing else.")
          ++ lit ("\nFocus only on the tables and columns provided in the schema below that are relevant to the user\x27s question.\n\nHere is the database schema:\n```sql\n") := rfl
    simp only [full_prompt_for_ollama, h4]
    simp [List.append_assoc]
